import Mathlib

/-!
Shallow embedding of the screen-time control subsystem of the Kinderkuchen
repository (`apps/week_calendar/utils/screentime_manager.py` and
`apps/week_calendar/utils/screentime.py`), together with theorems settling
the specification claims about it.

Modelling conventions:
* Python `int` is `Int`; Python floor division `//` is `Int.fdiv` and `%`
  is `Int.emod` (both operands are non-negative wherever the code divides).
* `datetime.date` is `PyDate` (its ISO string key plus its weekday);
  `datetime.time` is `PyTime` (hour, minute, second — compared
  lexicographically exactly as Python compares `time` objects);
  `datetime.datetime` is `PyDateTime` (a date plus a time of day).
* The JSON usage file `screentime_data.json` is a partial map from ISO date
  strings to day records `{used_minutes, credits}`.  The file on disk is the
  `disk` field of the controller state; `save_screentime_data` copies the
  in-memory map to `disk` and bumps an invocation counter `saveCalls`.
* File reads that may raise are modelled as `Option` inputs to the load
  functions (`none` = open/parse raised).
* The interactive `QTimer`/`QDialog` layer of `ScreenTimeManager` is
  modelled as a labelled transition system: timer ticks, pause/resume calls
  and PIN entries into an open lock dialog are events of `MgrEvent`.
-/

/-- One value of the `screentime_data.json` mapping: a per-day record with
`used_minutes` and `credits`. -/
structure DayRec where
  used_minutes : Int
  credits : Int
deriving DecidableEq, Repr

/-- A Python `datetime.date`, reduced to the two observations the code
makes of it: `isoformat()` (the JSON key) and `weekday()` (0 = Monday). -/
structure PyDate where
  iso : String
  weekday : Fin 7
deriving DecidableEq

/-- A Python `datetime.time` (hour, minute, second). -/
structure PyTime where
  hour : Nat
  minute : Nat
  second : Nat
deriving DecidableEq, Repr

/-- Python `time` comparison: lexicographic on (hour, minute, second). -/
def PyTime.le (a b : PyTime) : Bool :=
  if a.hour < b.hour then true
  else if b.hour < a.hour then false
  else if a.minute < b.minute then true
  else if b.minute < a.minute then false
  else decide (a.second ≤ b.second)

/-- A Python `datetime.datetime`, reduced to its date part and time part;
`weekday()` of the datetime is the weekday of its date. -/
structure PyDateTime where
  date : PyDate
  tod : PyTime
deriving DecidableEq

/-- Two-digit zero-padded rendering of a time component, as `"%H:%M"`
formatting produces it. -/
def fmt2 (n : Nat) : String :=
  if n < 10 then "0" ++ toString n else toString n

/-- Rendering of a `PyTime` back to the `"HH:MM"` config notation it was
parsed from (config times have second 0, so this round-trips). -/
def PyTime.hm (t : PyTime) : String :=
  fmt2 t.hour ++ ":" ++ fmt2 t.minute

/-- The weekday-name table of `get_allowed_minutes_for_day` and
`is_within_usage_times`. -/
def weekday_names : List String :=
  ["monday", "tuesday", "wednesday", "thursday", "friday", "saturday", "sunday"]

/-- `weekday_names[d.weekday()]`. -/
def weekdayName (w : Fin 7) : String :=
  weekday_names.getD w.val ""

/-- State of a `ScreenTimeController` (screentime_manager.py).  The
`weekly_usage_times` table holds the `strptime("%H:%M")`-parsed start/end
times.  `disk` models the contents of `screentime_data.json`, and
`saveCalls` counts invocations of `save_screentime_data`. -/
structure Ctrl where
  enabled : Bool
  allowed_time_mode : String
  daily_allowed_minutes : Int
  weekly_allowed_minutes : String → Option Int
  calendar_category : String
  usage_times_mode : String
  daily_usage_times : PyTime × PyTime
  weekly_usage_times : String → Option (PyTime × PyTime)
  screentime_data : String → Option DayRec
  disk : String → Option DayRec
  saveCalls : Nat

/-- Point update of the usage map (Python `self.screentime_data[k] = r`). -/
def setRec (data : String → Option DayRec) (k : String) (r : DayRec) :
    String → Option DayRec :=
  fun k2 => if k2 = k then some r else data k2

/-- The fields read from the `"screentime"` section of `settings.json`;
each is optional because `dict.get` supplies a default when absent. -/
structure STConfig where
  enabled : Option Bool
  allowed_time_mode : Option String
  daily_allowed_minutes : Option Int
  weekly_allowed_minutes : Option (String → Option Int)
  calendar_category : Option String
  usage_times_mode : Option String
  daily_usage_times : Option (PyTime × PyTime)
  weekly_usage_times : Option (String → Option (PyTime × PyTime))

/-- `ScreenTimeController.load_settings`: `none` models the `except` branch
(opening or parsing `settings.json` raised), which assigns only `enabled`,
`allowed_time_mode` and `daily_allowed_minutes`; all other attributes keep
whatever value they had (in Python they stay unset). -/
def Ctrl.load_settings (st : Ctrl) (input : Option STConfig) : Ctrl :=
  match input with
  | some c =>
      { st with
        enabled := c.enabled.getD false
        allowed_time_mode := c.allowed_time_mode.getD "daily"
        daily_allowed_minutes := c.daily_allowed_minutes.getD 30
        weekly_allowed_minutes := c.weekly_allowed_minutes.getD (fun _ => none)
        calendar_category := c.calendar_category.getD "Screentime"
        usage_times_mode := c.usage_times_mode.getD "always"
        daily_usage_times :=
          c.daily_usage_times.getD (⟨0, 0, 0⟩, ⟨23, 59, 0⟩)
        weekly_usage_times := c.weekly_usage_times.getD (fun _ => none) }
  | none =>
      { st with
        enabled := false
        allowed_time_mode := "daily"
        daily_allowed_minutes := 30 }

/-- `ScreenTimeController.load_screentime_data`: `some dat` is a successful
parse of `screentime_data.json`; `none` covers both a missing file and a
read/parse exception, both of which leave `screentime_data = {}`. -/
def Ctrl.load_screentime_data (st : Ctrl) (input : Option (String → Option DayRec)) :
    Ctrl :=
  match input with
  | some dat => { st with screentime_data := dat }
  | none => { st with screentime_data := fun _ => none }

/-- `ScreenTimeController.save_screentime_data`: writes the in-memory map
to `screentime_data.json` (the `disk` field). -/
def Ctrl.save_screentime_data (st : Ctrl) : Ctrl :=
  { st with disk := st.screentime_data, saveCalls := st.saveCalls + 1 }

/-- `ScreenTimeController.get_allowed_minutes_for_day`. -/
def Ctrl.get_allowed_minutes_for_day (st : Ctrl) (target_date : PyDate) : Int :=
  if st.allowed_time_mode = "daily" then
    st.daily_allowed_minutes
  else if st.allowed_time_mode = "weekly" then
    (st.weekly_allowed_minutes (weekdayName target_date.weekday)).getD 30
  else if st.allowed_time_mode = "calendar" then
    st.daily_allowed_minutes
  else
    30

/-- `ScreenTimeController.get_used_minutes_for_day`:
`screentime_data.get(date_str, {}).get("used_minutes", 0)`. -/
def Ctrl.get_used_minutes_for_day (st : Ctrl) (target_date : PyDate) : Int :=
  ((st.screentime_data target_date.iso).map DayRec.used_minutes).getD 0

/-- The stored credits of a day:
`screentime_data.get(date_str, {}).get("credits", 0)`. -/
def Ctrl.creditsStored (st : Ctrl) (target_date : PyDate) : Int :=
  ((st.screentime_data target_date.iso).map DayRec.credits).getD 0

/-- `ScreenTimeController.get_remaining_minutes_for_day`. -/
def Ctrl.get_remaining_minutes_for_day (st : Ctrl) (target_date : PyDate) : Int :=
  let allowed := st.get_allowed_minutes_for_day target_date
  let used := st.get_used_minutes_for_day target_date
  let credits := ((st.screentime_data target_date.iso).map DayRec.credits).getD 0
  max 0 (allowed + credits - used)

/-- `ScreenTimeController.add_used_time` (with its `target_date` argument
supplied; the Python default is `date.today()`). -/
def Ctrl.add_used_time (st : Ctrl) (minutes : Int) (target_date : PyDate) : Ctrl :=
  let date_str := target_date.iso
  let data0 :=
    if (st.screentime_data date_str).isNone then
      setRec st.screentime_data date_str ⟨0, 0⟩
    else
      st.screentime_data
  let r := (data0 date_str).getD ⟨0, 0⟩
  let data1 := setRec data0 date_str { r with used_minutes := r.used_minutes + minutes }
  Ctrl.save_screentime_data { st with screentime_data := data1 }

/-- `ScreenTimeController.credit_time_for_day`. -/
def Ctrl.credit_time_for_day (st : Ctrl) (minutes : Int) (target_date : PyDate) : Ctrl :=
  let date_str := target_date.iso
  let data0 :=
    if (st.screentime_data date_str).isNone then
      setRec st.screentime_data date_str ⟨0, 0⟩
    else
      st.screentime_data
  let r := (data0 date_str).getD ⟨0, 0⟩
  let data1 := setRec data0 date_str { r with credits := r.credits + minutes }
  Ctrl.save_screentime_data { st with screentime_data := data1 }

/-- `ScreenTimeController.is_within_usage_times` (with the `check_time`
argument supplied; the Python default is `datetime.now()`). -/
def Ctrl.is_within_usage_times (st : Ctrl) (check_time : PyDateTime) :
    Bool × Option String :=
  if st.enabled = false then
    (true, none)
  else if st.usage_times_mode = "always" then
    (true, none)
  else if st.usage_times_mode = "weekly" then
    let weekday := weekdayName check_time.date.weekday
    let times :=
      (st.weekly_usage_times weekday).getD (⟨0, 0, 0⟩, ⟨23, 59, 0⟩)
    let start_time := times.1
    let end_time := times.2
    let current_time := check_time.tod
    if PyTime.le start_time current_time && PyTime.le current_time end_time then
      (true, none)
    else
      (false, some ("Außerhalb der erlaubten Nutzungszeit (" ++
        start_time.hm ++ " - " ++ end_time.hm ++ ")"))
  else if st.usage_times_mode = "calendar" then
    (true, none)
  else
    (true, none)

/-- `ScreenTimeController.can_start_session`, with the current moment `now`
made explicit (Python calls `datetime.now()` inside
`is_within_usage_times` and `date.today()` for the remaining check). -/
def Ctrl.can_start_session (st : Ctrl) (now : PyDateTime) : Bool × Option String :=
  if st.enabled = false then
    (true, none)
  else
    let w := st.is_within_usage_times now
    if w.1 = false then
      (false, w.2)
    else
      let remaining := st.get_remaining_minutes_for_day now.date
      if remaining ≤ 0 then
        (false, some "Bildschirmzeit für heute aufgebraucht")
      else
        (true, none)

/-- State of a `ScreenTimeManager` (screentime.py).  `timerActive` models
`self.timer.isActive()`, and `stoppedEmits` counts emissions of the
`timer_stopped` signal. -/
structure Mgr where
  ctrl : Ctrl
  enabled : Bool
  limit_minutes : Int
  reminders : List Int
  pin_code : String
  shown_reminders : List Int
  start_time : Option PyDateTime
  elapsed_seconds : Int
  is_paused : Bool
  is_locked : Bool
  timerActive : Bool
  stoppedEmits : Nat

/-- `ScreenTimeManager.stop` as the program executes it: the class body
defines `stop` twice and the second (file-final) definition shadows the
first, so the effective method only stops the timer and emits
`timer_stopped`. -/
def Mgr.stop (st : Mgr) : Mgr :=
  { st with timerActive := false, stoppedEmits := st.stoppedEmits + 1 }

/-- The first, shadowed definition of `ScreenTimeManager.stop` (dead code):
it would round the elapsed seconds to minutes (rounding up from 30 s) and
record them through `add_used_time` before stopping the timer.  `today`
stands for `date.today()`. -/
def Mgr.stopShadowed (st : Mgr) (today : PyDate) : Mgr :=
  let was_running := st.timerActive
  let st1 :=
    if was_running && decide (0 < st.elapsed_seconds) then
      let used_minutes :=
        st.elapsed_seconds.fdiv 60 +
          (if 30 ≤ st.elapsed_seconds.emod 60 then 1 else 0)
      { st with ctrl := st.ctrl.add_used_time used_minutes today }
    else
      st
  let st2 := { st1 with timerActive := false }
  if was_running then
    { st2 with stoppedEmits := st2.stoppedEmits + 1 }
  else
    st2

/-- `ScreenTimeManager.pause`. -/
def Mgr.pause (st : Mgr) : Mgr :=
  { st with is_paused := true }

/-- `ScreenTimeManager.resume`. -/
def Mgr.resume (st : Mgr) : Mgr :=
  { st with is_paused := false }

/-- `ScreenTimeManager.start`, with the current moment `now` explicit:
denied sessions (controller veto), disabled screentime and an existing lock
leave the state unchanged; otherwise the session limit is clamped to
today's remaining minutes and the timer starts from zero. -/
def Mgr.start (st : Mgr) (now : PyDateTime) : Mgr :=
  let c := st.ctrl.can_start_session now
  if c.1 = false then
    st
  else if st.enabled = false ∨ st.is_locked = true then
    st
  else
    let remaining_minutes := st.ctrl.get_remaining_minutes_for_day now.date
    let limit := min st.limit_minutes remaining_minutes
    { st with
      limit_minutes := limit
      start_time := some now
      elapsed_seconds := 0
      shown_reminders := []
      timerActive := true }

/-- Entry into `ScreenTimeManager._lock_screen` up to the modal dialog:
`self.stop()` (the effective, second definition) followed by
`self.is_locked = True`.  The blocking `LockDialog` interaction is modelled
by the `pinEntry` / `dialogClosed` events. -/
def Mgr.lockScreenEnter (st : Mgr) : Mgr :=
  { st.stop with is_locked := true }

/-- `ScreenTimeManager._on_timer_tick`: paused or locked ticks do nothing;
otherwise elapsed time advances by one second, at most one due reminder is
recorded (`_show_reminder` pauses, shows a modal dialog and resumes, so its
net state effect is the `shown_reminders` insertion), and an expired timer
enters `_lock_screen`. -/
def Mgr.tick (st : Mgr) : Mgr :=
  if st.is_paused = true ∨ st.is_locked = true then
    st
  else
    let elapsed := st.elapsed_seconds + 1
    let remaining_seconds := st.limit_minutes * 60 - elapsed
    let st1 := { st with elapsed_seconds := elapsed }
    let st2 :=
      if 5 ≤ elapsed then
        let remaining_minutes := remaining_seconds.fdiv 60
        match st1.reminders.find?
            (fun r => remaining_minutes == r && !(st1.shown_reminders.contains r)) with
        | some r => { st1 with shown_reminders := r :: st1.shown_reminders }
        | none => st1
      else
        st1
    if remaining_seconds ≤ 0 then
      st2.lockScreenEnter
    else
      st2

/-- `LockDialog._check_pin`: the dialog is accepted exactly when the
entered text equals the configured PIN. -/
def checkPin (pin_code entered : String) : Bool :=
  entered == pin_code

/-- A PIN entry into the open lock dialog.  `_check_pin` accepts on a
correct PIN, upon which `_lock_screen` clears `is_locked` and calls
`start()`; a wrong PIN only clears the input field and the dialog stays
open, leaving the manager state unchanged. -/
def Mgr.pinEntry (st : Mgr) (entered : String) (now : PyDateTime) : Mgr :=
  if st.is_locked = true ∧ checkPin st.pin_code entered = true then
    Mgr.start { st with is_locked := false } now
  else
    st

/-- Events of the interactive layer: a timer tick, the parent pausing or
resuming, a PIN entry into the lock dialog, or the lock dialog being
dismissed without acceptance (upon which `_lock_screen` recurses: it stops
the timer again and re-opens the dialog, staying locked). -/
inductive MgrEvent where
  | tick
  | pauseEv
  | resumeEv
  | pinEntry (entered : String) (now : PyDateTime)
  | dialogClosed

/-- The labelled transition function of `ScreenTimeManager`. -/
def Mgr.step (st : Mgr) : MgrEvent → Mgr
  | MgrEvent.tick => st.tick
  | MgrEvent.pauseEv => st.pause
  | MgrEvent.resumeEv => st.resume
  | MgrEvent.pinEntry entered now => st.pinEntry entered now
  | MgrEvent.dialogClosed => if st.is_locked = true then st.lockScreenEnter else st

/-- The PIN carried by an event, when it is a PIN entry. -/
def MgrEvent.pinOf : MgrEvent → Option String
  | MgrEvent.pinEntry entered _ => some entered
  | _ => none

/-- The controller state obtained when both config reads fail: the
`except` fallback of `load_settings` followed by the fallback of
`load_screentime_data`. -/
def ctrlFallback (st : Ctrl) : Ctrl :=
  (st.load_settings none).load_screentime_data none

/-- A concrete enabled controller with empty usage data (sample state for
concrete evaluations). -/
def ctrlBase : Ctrl where
  enabled := true
  allowed_time_mode := "daily"
  daily_allowed_minutes := 30
  weekly_allowed_minutes := fun _ => none
  calendar_category := "Screentime"
  usage_times_mode := "always"
  daily_usage_times := (⟨0, 0, 0⟩, ⟨23, 59, 0⟩)
  weekly_usage_times := fun _ => none
  screentime_data := fun _ => none
  disk := fun _ => none
  saveCalls := 0

/-- A concrete disabled controller whose daily allowance is exhausted
(`daily_allowed_minutes = 0`, so today's remaining minutes are 0). -/
def ctrlDisabledZero : Ctrl :=
  { ctrlBase with enabled := false, daily_allowed_minutes := 0 }

/-- A concrete controller holding one stored day record
(`2024-01-01 ↦ used 10, credits 5`). -/
def ctrlData : Ctrl :=
  { ctrlBase with
    screentime_data := fun k => if k = "2024-01-01" then some ⟨10, 5⟩ else none }

/-- A concrete controller in weekly usage-times mode whose Monday window
is 07:00–19:00. -/
def ctrlWeekly : Ctrl :=
  { ctrlBase with
    usage_times_mode := "weekly"
    weekly_usage_times :=
      fun k => if k = "monday" then some (⟨7, 0, 0⟩, ⟨19, 0, 0⟩) else none }

/-- Monday 2024-01-01. -/
def dateMon : PyDate := ⟨"2024-01-01", 0⟩

/-- Tuesday 2024-01-02. -/
def dateTue : PyDate := ⟨"2024-01-02", 1⟩

/-- Noon on Monday 2024-01-01. -/
def dtMonNoon : PyDateTime := ⟨dateMon, ⟨12, 0, 0⟩⟩

/-- A concrete locked manager state (timer expired and stopped, lock
dialog open, PIN `"1234"`). -/
def mgrLocked : Mgr where
  ctrl := ctrlBase
  enabled := true
  limit_minutes := 60
  reminders := [30, 5]
  pin_code := "1234"
  shown_reminders := []
  start_time := none
  elapsed_seconds := 120
  is_paused := false
  is_locked := true
  timerActive := false
  stoppedEmits := 1

/-- A concrete running manager state (timer active, 90 s elapsed). -/
def mgrRunning : Mgr :=
  { mgrLocked with
    is_locked := false
    timerActive := true
    elapsed_seconds := 90
    stoppedEmits := 0 }

/-- Helper: the day record stored for `d` after `add_used_time m d`. -/
theorem addUsed_data_eq (st : Ctrl) (m : Int) (d : PyDate) :
    (st.add_used_time m d).screentime_data d.iso =
      some ⟨st.get_used_minutes_for_day d + m, st.creditsStored d⟩ := by
  unfold Ctrl.add_used_time Ctrl.save_screentime_data Ctrl.get_used_minutes_for_day
    Ctrl.creditsStored
  cases hc : st.screentime_data d.iso with
  | none => simp [setRec, hc]
  | some r => simp [setRec, hc]

/-- Helper: `add_used_time m d` leaves every other key unchanged, bumps the
save counter, and leaves the written disk image equal to the in-memory map. -/
theorem addUsed_frame (st : Ctrl) (m : Int) (d : PyDate) (k : String)
    (hk : k ≠ d.iso) :
    (st.add_used_time m d).screentime_data k = st.screentime_data k ∧
    (st.add_used_time m d).saveCalls = st.saveCalls + 1 ∧
    (st.add_used_time m d).disk = (st.add_used_time m d).screentime_data := by
  unfold Ctrl.add_used_time Ctrl.save_screentime_data
  refine ⟨?_, rfl, rfl⟩
  cases hc : st.screentime_data d.iso with
  | none => simp [setRec, hc, hk]
  | some r => simp [setRec, hc, hk]

/-- Helper: the day record stored for `d` after `credit_time_for_day m d`. -/
theorem credit_data_eq (st : Ctrl) (m : Int) (d : PyDate) :
    (st.credit_time_for_day m d).screentime_data d.iso =
      some ⟨st.get_used_minutes_for_day d, st.creditsStored d + m⟩ := by
  unfold Ctrl.credit_time_for_day Ctrl.save_screentime_data Ctrl.get_used_minutes_for_day
    Ctrl.creditsStored
  cases hc : st.screentime_data d.iso with
  | none => simp [setRec, hc]
  | some r => simp [setRec, hc]

/-- Helper: `credit_time_for_day m d` leaves every other key unchanged and
does not touch the allowance configuration. -/
theorem credit_frame_aux (st : Ctrl) (m : Int) (d : PyDate) (k : String)
    (hk : k ≠ d.iso) :
    (st.credit_time_for_day m d).screentime_data k = st.screentime_data k ∧
    (st.credit_time_for_day m d).allowed_time_mode = st.allowed_time_mode ∧
    (st.credit_time_for_day m d).daily_allowed_minutes = st.daily_allowed_minutes ∧
    (st.credit_time_for_day m d).weekly_allowed_minutes = st.weekly_allowed_minutes := by
  unfold Ctrl.credit_time_for_day Ctrl.save_screentime_data
  refine ⟨?_, rfl, rfl, rfl⟩
  cases hc : st.screentime_data d.iso with
  | none => simp [setRec, hc, hk]
  | some r => simp [setRec, hc, hk]

/-- Helper: whenever `is_within_usage_times` denies, it supplies a reason. -/
theorem isWithin_reason_of_false (st : Ctrl) (t : PyDateTime)
    (h : (st.is_within_usage_times t).1 = false) :
    ((st.is_within_usage_times t).2).isSome = true := by
  unfold Ctrl.is_within_usage_times at h ⊢
  split_ifs at h ⊢
  dsimp only at h ⊢
  split <;> simp_all

/-- C1: for every date `d`, `get_remaining_minutes_for_day d` equals
`max 0 (allowance d + credits d - used d)`, where the allowance comes from
`get_allowed_minutes_for_day`, and used minutes and credits are the stored
per-day values (0 when the day has no record). -/
theorem remaining_invariant (st : Ctrl) (d : PyDate) :
    st.get_remaining_minutes_for_day d =
      max 0 (st.get_allowed_minutes_for_day d + st.creditsStored d -
        st.get_used_minutes_for_day d) := rfl

/-- C5: `get_allowed_minutes_for_day` derives the allowance from the active
mode: constant `daily_allowed_minutes` in mode `"daily"`; the per-weekday
table entry (default 30) in mode `"weekly"`; `daily_allowed_minutes` again
for the unimplemented `"calendar"` placeholder; and 30 for any other mode. -/
theorem allowed_minutes_mode_cases (st : Ctrl) (d : PyDate) :
    (st.allowed_time_mode = "daily" →
      st.get_allowed_minutes_for_day d = st.daily_allowed_minutes) ∧
    (st.allowed_time_mode = "weekly" →
      st.get_allowed_minutes_for_day d =
        (st.weekly_allowed_minutes (weekdayName d.weekday)).getD 30) ∧
    (st.allowed_time_mode = "calendar" →
      st.get_allowed_minutes_for_day d = st.daily_allowed_minutes) ∧
    (st.allowed_time_mode ≠ "daily" → st.allowed_time_mode ≠ "weekly" →
      st.allowed_time_mode ≠ "calendar" → st.get_allowed_minutes_for_day d = 30) := by
  unfold Ctrl.get_allowed_minutes_for_day
  refine ⟨fun h1 => ?_, fun h2 => ?_, fun h3 => ?_, fun n1 n2 n3 => ?_⟩ <;>
    simp_all

/-- Witness for C5 at a concrete weekly-mode state: Monday resolves through
the weekday table default. -/
theorem allowed_minutes_mode_cases_witness :
    ({ ctrlBase with allowed_time_mode := "weekly" } : Ctrl).get_allowed_minutes_for_day
      dateMon = 30 := by
  have h := allowed_minutes_mode_cases { ctrlBase with allowed_time_mode := "weekly" } dateMon
  exact (h.2.1 rfl).trans (by simp [ctrlBase])

/-- C6: a failed settings read falls back to `enabled = false`, mode
`"daily"`, 30 daily minutes; a failed or missing usage-data read falls back
to the empty mapping; and on the fallback state every controller operation
is still defined and yields the default answers, whatever values the
untouched fields hold. -/
theorem load_failure_fallback (st st0 : Ctrl) (t : PyDateTime) (d : PyDate) :
    (ctrlFallback st).enabled = false ∧
    (ctrlFallback st).allowed_time_mode = "daily" ∧
    (ctrlFallback st).daily_allowed_minutes = 30 ∧
    (ctrlFallback st).screentime_data = (fun _ => none) ∧
    (st0.load_screentime_data none).screentime_data = (fun _ => none) ∧
    (ctrlFallback st).get_allowed_minutes_for_day d = 30 ∧
    (ctrlFallback st).get_used_minutes_for_day d = 0 ∧
    (ctrlFallback st).get_remaining_minutes_for_day d = 30 ∧
    (ctrlFallback st).is_within_usage_times t = (true, none) ∧
    (ctrlFallback st).can_start_session t = (true, none) := by
  refine ⟨rfl, rfl, rfl, rfl, rfl, rfl, rfl, ?_, rfl, rfl⟩
  simp [ctrlFallback, Ctrl.load_settings, Ctrl.load_screentime_data,
    Ctrl.get_remaining_minutes_for_day, Ctrl.get_allowed_minutes_for_day,
    Ctrl.get_used_minutes_for_day]

/-- C2 counterexample: at the concrete disabled controller whose daily
allowance is 0, today's remaining minutes are ≤ 0 and yet
`can_start_session` returns `(True, None)` — so the claim's "for every
controller state" fails (the enabled-check precedes every deny path). -/
theorem can_start_disabled_counterexample :
    ctrlDisabledZero.get_remaining_minutes_for_day dateMon ≤ 0 ∧
    ctrlDisabledZero.can_start_session dtMonNoon = (true, none) := by
  exact ⟨by decide, rfl⟩

/-- C2 (amended): for every controller state WITH SCREENTIME ENABLED,
`can_start_session` fails closed: it returns `(False, reason)` whenever the
usage-time window denies or the remaining minutes for today are ≤ 0, and
`(True, None)` otherwise. -/
theorem can_start_fails_closed_when_enabled (st : Ctrl) (now : PyDateTime)
    (h : st.enabled = true) :
    ((st.is_within_usage_times now).1 = false →
      (st.can_start_session now).1 = false ∧
        ((st.can_start_session now).2).isSome = true) ∧
    (st.get_remaining_minutes_for_day now.date ≤ 0 →
      (st.can_start_session now).1 = false ∧
        ((st.can_start_session now).2).isSome = true) ∧
    ((st.is_within_usage_times now).1 = true →
      0 < st.get_remaining_minutes_for_day now.date →
      st.can_start_session now = (true, none)) := by
  have hr := isWithin_reason_of_false st now
  refine ⟨fun hw => ?_, fun hrem => ?_, fun hw hpos => ?_⟩
  · unfold Ctrl.can_start_session
    simp [h, hw, hr hw]
  · unfold Ctrl.can_start_session
    cases hw2 : (st.is_within_usage_times now).1 with
    | false => simp [h, hw2, hr hw2]
    | true => simp [h, hw2, hrem]
  · unfold Ctrl.can_start_session
    simp [h, hw, show ¬ st.get_remaining_minutes_for_day now.date ≤ 0 from
      not_le.mpr hpos]

/-- Witness for C2 (amended) at a concrete enabled controller in the open
"always" window with a fresh allowance. -/
theorem can_start_fails_closed_witness :
    ctrlBase.can_start_session dtMonNoon = (true, none) :=
  (can_start_fails_closed_when_enabled ctrlBase dtMonNoon rfl).2.2 rfl (by decide)

/-- C3: `add_used_time m d` (for `m ≥ 0`) sets the stored used minutes of
`d` to their previous value (0 when the day had no record) plus `m`, so
usage never decreases, bumps the `save_screentime_data` invocation count by
one, and leaves the written disk image equal to the in-memory map. -/
theorem add_used_time_accumulates (st : Ctrl) (m : Int) (d : PyDate)
    (h : 0 ≤ m) :
    (st.add_used_time m d).screentime_data d.iso =
      some ⟨st.get_used_minutes_for_day d + m, st.creditsStored d⟩ ∧
    (st.add_used_time m d).get_used_minutes_for_day d =
      st.get_used_minutes_for_day d + m ∧
    st.get_used_minutes_for_day d ≤
      (st.add_used_time m d).get_used_minutes_for_day d ∧
    (st.add_used_time m d).saveCalls = st.saveCalls + 1 ∧
    (st.add_used_time m d).disk = (st.add_used_time m d).screentime_data := by
  have h1 := addUsed_data_eq st m d
  have h2 : (st.add_used_time m d).get_used_minutes_for_day d =
      st.get_used_minutes_for_day d + m := by
    simp [Ctrl.get_used_minutes_for_day, h1]
  refine ⟨h1, h2, ?_, rfl, rfl⟩
  rw [h2]
  omega

/-- Witness for C3 at the concrete one-record controller: adding 7 minutes
on the stored day yields the old value plus 7 and performs one save. -/
theorem add_used_time_accumulates_witness :
    (ctrlData.add_used_time 7 dateMon).get_used_minutes_for_day dateMon =
      ctrlData.get_used_minutes_for_day dateMon + 7 ∧
    (ctrlData.add_used_time 7 dateMon).saveCalls = ctrlData.saveCalls + 1 :=
  ⟨(add_used_time_accumulates ctrlData 7 dateMon (by decide)).2.1,
   (add_used_time_accumulates ctrlData 7 dateMon (by decide)).2.2.2.1⟩

/-- C4: `credit_time_for_day m d` adds `m` to the stored credits of `d`
(creating a `used 0, credits 0` record first when none exists), leaving the
base allowance of `d`, the used minutes of `d`, and every other day's
record unchanged. -/
theorem credit_time_frame (st : Ctrl) (m : Int) (d : PyDate) (k : String)
    (hk : k ≠ d.iso) :
    (st.credit_time_for_day m d).screentime_data d.iso =
      some ⟨st.get_used_minutes_for_day d, st.creditsStored d + m⟩ ∧
    (st.credit_time_for_day m d).creditsStored d = st.creditsStored d + m ∧
    (st.credit_time_for_day m d).get_used_minutes_for_day d =
      st.get_used_minutes_for_day d ∧
    (st.credit_time_for_day m d).get_allowed_minutes_for_day d =
      st.get_allowed_minutes_for_day d ∧
    (st.credit_time_for_day m d).screentime_data k = st.screentime_data k := by
  have h1 := credit_data_eq st m d
  have h2 := credit_frame_aux st m d k hk
  refine ⟨h1, ?_, ?_, ?_, h2.1⟩
  · simp [Ctrl.creditsStored, h1]
  · simp [Ctrl.get_used_minutes_for_day, h1]
  · unfold Ctrl.get_allowed_minutes_for_day
    rw [h2.2.1, h2.2.2.1, h2.2.2.2]

/-- Witness for C4 at the concrete one-record controller: crediting 4
minutes to the stored Monday adds 4 credits there and leaves the Tuesday
key untouched. -/
theorem credit_time_frame_witness :
    (ctrlData.credit_time_for_day 4 dateMon).creditsStored dateMon =
      ctrlData.creditsStored dateMon + 4 ∧
    (ctrlData.credit_time_for_day 4 dateMon).screentime_data "2024-01-02" =
      ctrlData.screentime_data "2024-01-02" :=
  ⟨(credit_time_frame ctrlData 4 dateMon "2024-01-02" (by decide)).2.1,
   (credit_time_frame ctrlData 4 dateMon "2024-01-02" (by decide)).2.2.2.2⟩

/-- C10: with screentime disabled — also the state after a settings-load
failure — both `can_start_session` and `is_within_usage_times` return
`(True, None)` unconditionally: access fails open on config failure. -/
theorem disabled_fails_open (st prev : Ctrl) (t : PyDateTime)
    (h : st.enabled = false) :
    st.can_start_session t = (true, none) ∧
    st.is_within_usage_times t = (true, none) ∧
    (prev.load_settings none).enabled = false := by
  refine ⟨?_, ?_, rfl⟩
  · unfold Ctrl.can_start_session
    simp [h]
  · unfold Ctrl.is_within_usage_times
    simp [h]

/-- Witness for C10: the concrete disabled controller starts a session at
noon despite its exhausted allowance. -/
theorem disabled_fails_open_witness :
    ctrlDisabledZero.can_start_session dtMonNoon = (true, none) :=
  (disabled_fails_open ctrlDisabledZero ctrlDisabledZero dtMonNoon rfl).1

/-- Helper: the used minutes of `d` after `add_used_time m d`. -/
theorem addUsed_used_eq (st : Ctrl) (m : Int) (d : PyDate) :
    (st.add_used_time m d).get_used_minutes_for_day d =
      st.get_used_minutes_for_day d + m := by
  simp [Ctrl.get_used_minutes_for_day, addUsed_data_eq st m d]

/-- C8: with screentime enabled and weekly usage times, the window check
allows exactly when `start ≤ t.time() ≤ end` for the weekday's configured
interval (00:00–23:59 when the weekday is absent); its verdict ignores the
stored usage/credit data entirely; and the `"always"` and `"calendar"`
modes always allow. -/
theorem usage_window_gate (st : Ctrl) (t : PyDateTime)
    (data2 : String → Option DayRec)
    (h1 : st.enabled = true) (h2 : st.usage_times_mode = "weekly") :
    (st.is_within_usage_times t).1 =
      (PyTime.le ((st.weekly_usage_times (weekdayName t.date.weekday)).getD
          (⟨0, 0, 0⟩, ⟨23, 59, 0⟩)).1 t.tod &&
       PyTime.le t.tod ((st.weekly_usage_times (weekdayName t.date.weekday)).getD
          (⟨0, 0, 0⟩, ⟨23, 59, 0⟩)).2) ∧
    ({ st with screentime_data := data2 } : Ctrl).is_within_usage_times t =
      st.is_within_usage_times t ∧
    ({ st with usage_times_mode := "always" } : Ctrl).is_within_usage_times t =
      (true, none) ∧
    ({ st with usage_times_mode := "calendar" } : Ctrl).is_within_usage_times t =
      (true, none) := by
  refine ⟨?_, rfl, ?_, ?_⟩
  · unfold Ctrl.is_within_usage_times
    simp [h1, h2]
    split <;> simp_all
  · unfold Ctrl.is_within_usage_times
    simp [h1]
  · unfold Ctrl.is_within_usage_times
    simp [h1]

/-- Witness for C8 at the concrete weekly controller (Monday window
07:00–19:00): switching the same state to `"always"` mode admits noon. -/
theorem usage_window_gate_witness :
    ({ ctrlWeekly with usage_times_mode := "always" } : Ctrl).is_within_usage_times
      dtMonNoon = (true, none) :=
  (usage_window_gate ctrlWeekly dtMonNoon (fun _ => none) rfl rfl).2.2.1

/-- C9: the effective `ScreenTimeManager.stop` (the second, shadowing
definition) only stops the timer and emits `timer_stopped`: the controller
— hence the per-day usage store — is untouched, while the shadowed first
definition would have invoked `add_used_time` with the rounded minutes. -/
theorem stop_records_no_usage (st : Mgr) (d : PyDate)
    (h1 : st.timerActive = true) (h2 : 0 < st.elapsed_seconds) :
    (st.stop).ctrl = st.ctrl ∧
    (st.stop).timerActive = false ∧
    (st.stop).stoppedEmits = st.stoppedEmits + 1 ∧
    (st.stop).elapsed_seconds = st.elapsed_seconds ∧
    (st.stop).is_locked = st.is_locked ∧
    (st.stop).is_paused = st.is_paused ∧
    (st.stopShadowed d).ctrl.saveCalls = st.ctrl.saveCalls + 1 ∧
    (st.stopShadowed d).ctrl.get_used_minutes_for_day d =
      st.ctrl.get_used_minutes_for_day d +
        (st.elapsed_seconds.fdiv 60 +
          if 30 ≤ st.elapsed_seconds.emod 60 then 1 else 0) := by
  refine ⟨rfl, rfl, rfl, rfl, rfl, rfl, ?_, ?_⟩
  · unfold Mgr.stopShadowed
    simp [h1, h2]
    rfl
  · unfold Mgr.stopShadowed
    simp [h1, h2, addUsed_used_eq]

/-- Witness for C9 at the concrete running manager (timer active, 90 s
elapsed): stopping leaves the controller untouched. -/
theorem stop_records_no_usage_witness :
    (mgrRunning.stop).ctrl = mgrRunning.ctrl ∧
    (mgrRunning.stop).timerActive = false :=
  ⟨(stop_records_no_usage mgrRunning dateMon rfl (by decide)).1,
   (stop_records_no_usage mgrRunning dateMon rfl (by decide)).2.1⟩

/-- C7: the lock state machine.  A tick of a running (unpaused, unlocked)
manager whose remaining seconds reach 0 locks the screen and stops the
timer; a locked manager becomes unlocked — or its timer is restarted —
only through a PIN entry equal to the configured PIN; `pause` sets
`is_paused`, `resume` clears it; and ticks while paused or locked do not
advance `elapsed_seconds`. -/
theorem lock_state_machine (st : Mgr) (e : MgrEvent) :
    (st.is_paused = false → st.is_locked = false →
      st.limit_minutes * 60 - (st.elapsed_seconds + 1) ≤ 0 →
      (st.tick).is_locked = true ∧ (st.tick).timerActive = false) ∧
    (st.is_locked = true → (st.step e).is_locked = false →
      e.pinOf = some st.pin_code) ∧
    (st.is_locked = true → st.timerActive = false →
      (st.step e).timerActive = true → e.pinOf = some st.pin_code) ∧
    (st.pause).is_paused = true ∧
    (st.resume).is_paused = false ∧
    ((st.is_paused = true ∨ st.is_locked = true) →
      (st.tick).elapsed_seconds = st.elapsed_seconds) := by
  refine ⟨fun hp hl hexp => ?_, fun hl hun => ?_, fun hl hta hun => ?_, rfl, rfl,
    fun h => ?_⟩
  · unfold Mgr.tick
    rw [if_neg (by simp [hp, hl])]
    dsimp only
    rw [if_pos hexp]
    exact ⟨rfl, rfl⟩
  · cases e with
    | tick =>
        simp [Mgr.step, Mgr.tick, hl] at hun
    | pauseEv =>
        simp [Mgr.step, Mgr.pause, hl] at hun
    | resumeEv =>
        simp [Mgr.step, Mgr.resume, hl] at hun
    | pinEntry s now =>
        by_cases hc : checkPin st.pin_code s = true
        · simp only [MgrEvent.pinOf]
          simp [checkPin] at hc
          rw [hc]
        · simp [Mgr.step, Mgr.pinEntry, hc, hl] at hun
    | dialogClosed =>
        simp [Mgr.step, Mgr.lockScreenEnter, Mgr.stop, hl] at hun
  · cases e with
    | tick =>
        simp [Mgr.step, Mgr.tick, hl, hta] at hun
    | pauseEv =>
        simp [Mgr.step, Mgr.pause, hta] at hun
    | resumeEv =>
        simp [Mgr.step, Mgr.resume, hta] at hun
    | pinEntry s now =>
        by_cases hc : checkPin st.pin_code s = true
        · simp only [MgrEvent.pinOf]
          simp [checkPin] at hc
          rw [hc]
        · simp [Mgr.step, Mgr.pinEntry, hc, hta] at hun
    | dialogClosed =>
        simp [Mgr.step, Mgr.lockScreenEnter, Mgr.stop, hl] at hun
  · unfold Mgr.tick
    rw [if_pos h]

/-- Witness for C7 at the concrete locked manager: a tick while locked does
not advance the elapsed seconds. -/
theorem lock_state_machine_witness :
    (mgrLocked.tick).elapsed_seconds = mgrLocked.elapsed_seconds :=
  (lock_state_machine mgrLocked MgrEvent.tick).2.2.2.2.2 (Or.inr rfl)
